import Mathlib

/-!
Verification of the alert-handler service (`golang-alerthandler/main.go`).

The Go program is embedded shallowly:

* JSON values are an inductive `Json`; Go's `encoding/json` unmarshalling of
  the request body into `AlertMessage` is `unmarshalAlertMessage`, following
  Go semantics (missing keys leave the zero value, `null` is a no-op, wrong
  types are decode errors, the last duplicate key wins).
* The ambient process configuration is an explicit `Config` record.
* The two effectful collaborators are oracles passed in as functions:
  `snap : Nat → Except String String` gives the result of the i-th
  `createGrafanaSnapshot` call of the request, and
  `dial : Nat → EmailMsg → Option String` gives the outcome of the i-th
  `DialAndSend` (`some e` is a transport error).
* `handleAlert` returns the HTTP response together with a trace of the
  outbound-call events it performed, in order.
* The Grafana client (`sendRequest`, `getDashboardConfig`, `createSnapshot`,
  `createGrafanaSnapshot`) is embedded separately over an HTTP oracle
  `net : HttpRequest → Except String UpstreamResponse`, returning the list of
  requests it issued together with its result.
-/

/-- A JSON document, the shallow model of `encoding/json` values.
Objects are association lists in document order. -/
inductive Json where
  | null
  | bool (b : Bool)
  | num (n : Int)
  | str (s : String)
  | arr (elems : List Json)
  | obj (fields : List (String × Json))

/-- Lookup in an association list where the LAST binding wins, matching
Go's `encoding/json` treatment of duplicate object keys and the semantics
of a Go map built from them. -/
def lookupLast {α : Type} (l : List (String × α)) (k : String) : Option α :=
  l.foldl (fun acc p => if p.fst = k then some p.snd else acc) none

/-- `Alert` from main.go: status, labels and annotations.  The Go
`map[string]string` fields are association lists accessed via `lookupLast`. -/
structure Alert where
  status : String
  labels : List (String × String)
  annotations : List (String × String)
deriving DecidableEq

/-- `AlertMessage` from main.go: the decoded request body. -/
structure AlertMessage where
  alerts : List Alert
deriving DecidableEq

/-- Go map read `m[k]` on a `map[string]string`: the zero value `""` when
the key is absent. -/
def annot (m : List (String × String)) (k : String) : String :=
  (lookupLast m k).getD ""

/-- Go unmarshal of a JSON value into a `string` destination:
`null` is a no-op leaving the zero value, a string decodes to itself,
anything else is a type error. -/
def unmarshalString : Json → Except String String
  | Json.null => Except.ok ""
  | Json.str s => Except.ok s
  | _ => Except.error "cannot unmarshal value into Go value of type string"

/-- Go unmarshal of a JSON object's fields into `map[string]string` entries. -/
def unmarshalStringPairs : List (String × Json) → Except String (List (String × String))
  | [] => Except.ok []
  | (k, v) :: rest => do
    let s ← unmarshalString v
    let r ← unmarshalStringPairs rest
    Except.ok ((k, s) :: r)

/-- Go unmarshal of a JSON value into a `map[string]string` destination. -/
def unmarshalStringMap : Json → Except String (List (String × String))
  | Json.null => Except.ok []
  | Json.obj kvs => unmarshalStringPairs kvs
  | _ => Except.error "cannot unmarshal value into Go value of type map of string"

/-- Go unmarshal of a JSON value into an `Alert` destination: absent fields
keep their zero values, `null` is a no-op. -/
def unmarshalAlert : Json → Except String Alert
  | Json.null => Except.ok ⟨"", [], []⟩
  | Json.obj kvs => do
    let status ← match lookupLast kvs "status" with
      | none => Except.ok ""
      | some v => unmarshalString v
    let labels ← match lookupLast kvs "labels" with
      | none => Except.ok []
      | some v => unmarshalStringMap v
    let annotations ← match lookupLast kvs "annotations" with
      | none => Except.ok []
      | some v => unmarshalStringMap v
    Except.ok ⟨status, labels, annotations⟩
  | _ => Except.error "cannot unmarshal value into Go value of type main.Alert"

/-- Go unmarshal of the elements of the `alerts` array. -/
def unmarshalAlerts : List Json → Except String (List Alert)
  | [] => Except.ok []
  | j :: rest => do
    let a ← unmarshalAlert j
    let r ← unmarshalAlerts rest
    Except.ok (a :: r)

/-- Go `json.Unmarshal(body, &alertMessage)` for `AlertMessage`: a JSON
object without an `alerts` key (or with `alerts: null`, or a top-level
`null`) succeeds with the zero value, i.e. an empty batch; a top-level
non-object is a decode error. -/
def unmarshalAlertMessage : Json → Except String AlertMessage
  | Json.null => Except.ok ⟨[]⟩
  | Json.obj kvs =>
    match lookupLast kvs "alerts" with
    | none => Except.ok ⟨[]⟩
    | some Json.null => Except.ok ⟨[]⟩
    | some (Json.arr xs) => do
      let alerts ← unmarshalAlerts xs
      Except.ok ⟨alerts⟩
    | some _ => Except.error "cannot unmarshal value into Go struct field AlertMessage.alerts"
  | _ => Except.error "cannot unmarshal value into Go value of type main.AlertMessage"

/-- `Config` from main.go (the fields the request path reads). -/
structure Config where
  grafanaURL : String
  grafanaAPIKey : String
  smtpServer : String
  smtpPort : Nat
  senderEmail : String
  senderPassword : String
  recipientEmail : String
  dashboardUID : String
  port : String
deriving DecidableEq

/-- The gomail message assembled by `sendEmailWithSnapshotLink`. -/
structure EmailMsg where
  msgFrom : String
  msgTo : String
  subject : String
  htmlBody : String
deriving DecidableEq

/-- The message construction inside `sendEmailWithSnapshotLink`:
headers From/To/Subject and the HTML body
`fmt.Sprintf("%s<br><br>Grafana Snapshot: <a href='%s'>View Snapshot</a>", body, snapshotURL)`. -/
def composeEmailMessage (cfg : Config) (subject body snapshotURL : String) : EmailMsg :=
  { msgFrom := cfg.senderEmail
    msgTo := cfg.recipientEmail
    subject := subject
    htmlBody := body ++ "<br><br>Grafana Snapshot: <a href=\x27" ++ snapshotURL ++ "\x27>View Snapshot</a>" }

/-- `sendEmailWithSnapshotLink` with the dial outcome supplied by the
oracle `dialOne`: builds the message, dials, and wraps a transport error. -/
def sendEmailWithSnapshotLink (cfg : Config) (dialOne : EmailMsg → Option String)
    (subject body snapshotURL : String) : Except String Unit :=
  match dialOne (composeEmailMessage cfg subject body snapshotURL) with
  | some e => Except.error ("failed to send email: " ++ e)
  | none => Except.ok ()

/-- Subject construction in `handleAlert`:
`fmt.Sprintf("Monitor Alert: %s", alert.Annotations["summary"])`. -/
def composeSubject (a : Alert) : String :=
  "Monitor Alert: " ++ annot a.annotations "summary"

/-- Body construction in `handleAlert`:
`fmt.Sprintf("<h1>%s</h1><p>%s</p>", summary, description)`. -/
def composeBody (a : Alert) : String :=
  "<h1>" ++ annot a.annotations "summary" ++ "</h1><p>" ++ annot a.annotations "description" ++ "</p>"

/-- The snapshot URL actually used by `handleAlert`: the acquired URL, or the
literal placeholder assigned when `createGrafanaSnapshot` errored. -/
def urlOf : Except String String → String
  | Except.ok u => u
  | Except.error _ => "failed to get snapshot URL"

instance {ε α : Type} [DecidableEq ε] [DecidableEq α] : DecidableEq (Except ε α) := fun a b =>
  match a, b with
  | Except.error e₁, Except.error e₂ =>
    if h : e₁ = e₂ then isTrue (by rw [h]) else isFalse (by intro hh; cases hh; exact h rfl)
  | Except.error _, Except.ok _ => isFalse (by intro h; cases h)
  | Except.ok _, Except.error _ => isFalse (by intro h; cases h)
  | Except.ok a₁, Except.ok a₂ =>
    if h : a₁ = a₂ then isTrue (by rw [h]) else isFalse (by intro hh; cases hh; exact h rfl)

/-- The outbound-call events of one request, in order. -/
inductive Event where
  | snapshotCall (dashboardUID : String) (result : Except String String)
  | composed (subject body : String)
  | mailAttempt (m : EmailMsg)
deriving DecidableEq

/-- Number of snapshot-acquisition attempts in a trace. -/
def countSnapshots : List Event → Nat
  | [] => 0
  | Event.snapshotCall _ _ :: t => countSnapshots t + 1
  | _ :: t => countSnapshots t

/-- Number of message compositions in a trace. -/
def countComposed : List Event → Nat
  | [] => 0
  | Event.composed _ _ :: t => countComposed t + 1
  | _ :: t => countComposed t

/-- Number of mail-delivery attempts in a trace. -/
def countMail : List Event → Nat
  | [] => 0
  | Event.mailAttempt _ :: t => countMail t + 1
  | _ :: t => countMail t

/-- The HTTP response written by the handler.  Error bodies include the
trailing newline written by `http.Error`. -/
structure HttpResponse where
  status : Nat
  body : String
deriving DecidableEq

/-- The raw request body after a successful read: either not syntactically
valid JSON (with the decoder's error text) or a parsed JSON document. -/
inductive RawBody where
  | malformed (e : String)
  | wellFormed (j : Json)

/-- The outcome of `io.ReadAll(r.Body)`. -/
inductive BodyRead where
  | failure (e : String)
  | success (b : RawBody)

/-- The message `handleAlert` hands to the dialer for one alert, given the
snapshot result for that alert. -/
def stepMsg (cfg : Config) (snapRes : Except String String) (a : Alert) : EmailMsg :=
  composeEmailMessage cfg (composeSubject a) (composeBody a) (urlOf snapRes)

/-- The three events one loop iteration of `handleAlert` performs. -/
def alertEvents (cfg : Config) (snapRes : Except String String) (a : Alert) : List Event :=
  [Event.snapshotCall cfg.dashboardUID snapRes,
   Event.composed (composeSubject a) (composeBody a),
   Event.mailAttempt (stepMsg cfg snapRes a)]

/-- The `for _, alert := range alertMessage.Alerts` loop of `handleAlert`,
from the alert at position `i` of the request on: on a dial error it writes
500 and returns at once; otherwise it continues with the next alert.
Returns the trace of outbound events together with the response. -/
def processAlerts (snap : Nat → Except String String) (dial : Nat → EmailMsg → Option String)
    (cfg : Config) : List Alert → Nat → List Event × HttpResponse
  | [], _ => ([], ⟨200, ""⟩)
  | a :: rest, i =>
    let snapRes := snap i
    let evs := alertEvents cfg snapRes a
    match sendEmailWithSnapshotLink cfg (dial i) (composeSubject a) (composeBody a) (urlOf snapRes) with
    | Except.error _ => (evs, ⟨500, "Eerror sending email\n"⟩)
    | Except.ok _ =>
      let r := processAlerts snap dial cfg rest (i + 1)
      (evs ++ r.fst, r.snd)

/-- `handleAlert` from main.go: read body (500 on failure), unmarshal
(400 on failure), then the per-alert loop; 200 with empty body when the
loop finishes. -/
def handleAlert (rd : BodyRead) (snap : Nat → Except String String)
    (dial : Nat → EmailMsg → Option String) (cfg : Config) : List Event × HttpResponse :=
  match rd with
  | BodyRead.failure _ => ([], ⟨500, "error reading request body\n"⟩)
  | BodyRead.success (RawBody.malformed e) => ([], ⟨400, e ++ "\n"⟩)
  | BodyRead.success (RawBody.wellFormed j) =>
    match unmarshalAlertMessage j with
    | Except.error e => ([], ⟨400, e ++ "\n"⟩)
    | Except.ok m => processAlerts snap dial cfg m.alerts 0

/-- The full expected trace of a batch processed from position `i` on with
no abort: the three events of each alert, in the batch's input order. -/
def fullTrace (snap : Nat → Except String String) (cfg : Config) : List Alert → Nat → List Event
  | [], _ => []
  | a :: rest, i => alertEvents cfg (snap i) a ++ fullTrace snap cfg rest (i + 1)

/-- An outbound HTTP request of the Grafana client, as built by
`http.NewRequest` plus the header writes in `sendRequest`. -/
structure HttpRequest where
  method : String
  url : String
  headers : List (String × String)
  payload : Option Json

/-- An upstream HTTP response: status code and raw body (which may fail to
decode as JSON). -/
structure UpstreamResponse where
  statusCode : Nat
  respBody : RawBody

/-- Whether an `Except` result is an error. -/
def isFailure {α : Type} : Except String α → Bool
  | Except.error _ => true
  | Except.ok _ => false

/-- `sendRequest` from main.go: build the request with the bearer credential
header (plus Content-Type on POST), perform it through the transport oracle
`net`, and reject any status other than 200.  Returns the request that was
issued together with the outcome. -/
def sendRequest (net : HttpRequest → Except String UpstreamResponse) (cfg : Config)
    (method url : String) (payload : Option Json) : HttpRequest × Except String UpstreamResponse :=
  let req : HttpRequest :=
    { method := method
      url := url
      headers := ("Authorization", "Bearer " ++ cfg.grafanaAPIKey) ::
        (if method = "POST" then [("Content-Type", "application/json")] else [])
      payload := payload }
  (req,
    match net req with
    | Except.error e => Except.error ("error sending request: " ++ e)
    | Except.ok resp =>
      if resp.statusCode = 200 then Except.ok resp
      else Except.error ("unexpected status code: " ++ toString resp.statusCode))

/-- Go `json.NewDecoder(resp.Body).Decode(&m)` into `map[string]interface` :
an undecodable body or a non-object top level is an error, `null` leaves the
nil map. -/
def decodeJsonMap : RawBody → Except String (List (String × Json))
  | RawBody.malformed e => Except.error e
  | RawBody.wellFormed Json.null => Except.ok []
  | RawBody.wellFormed (Json.obj kvs) => Except.ok kvs
  | RawBody.wellFormed _ => Except.error "cannot unmarshal value into Go value of type map"

/-- `getDashboardConfig` from main.go: authenticated GET of the dashboard
definition, decode, and extract the `dashboard` object field (the Go type
assertion only accepts a JSON object there). -/
def getDashboardConfig (net : HttpRequest → Except String UpstreamResponse) (cfg : Config)
    (dashboardUID : String) : HttpRequest × Except String (List (String × Json)) :=
  let dashboardURL := cfg.grafanaURL ++ "/api/dashboards/uid/" ++ dashboardUID
  let sr := sendRequest net cfg "GET" dashboardURL none
  (sr.fst,
    match sr.snd with
    | Except.error e => Except.error e
    | Except.ok resp =>
      match decodeJsonMap resp.respBody with
      | Except.error e => Except.error ("error decoding dashboard response: " ++ e)
      | Except.ok kvs =>
        match lookupLast kvs "dashboard" with
        | some (Json.obj d) => Except.ok d
        | _ => Except.error "dashboard data not found in response")

/-- `createSnapshot` from main.go: authenticated POST of
`{"dashboard": dashboard, "expires": 3600}` to the snapshot endpoint,
decode, and extract the `url` string field. -/
def createSnapshot (net : HttpRequest → Except String UpstreamResponse) (cfg : Config)
    (dashboard : List (String × Json)) : HttpRequest × Except String String :=
  let snapshotURL := cfg.grafanaURL ++ "/api/snapshots"
  let payload := Json.obj [("dashboard", Json.obj dashboard), ("expires", Json.num 3600)]
  let sr := sendRequest net cfg "POST" snapshotURL (some payload)
  (sr.fst,
    match sr.snd with
    | Except.error e => Except.error e
    | Except.ok resp =>
      match decodeJsonMap resp.respBody with
      | Except.error e => Except.error ("error decoding snapshot response: " ++ e)
      | Except.ok kvs =>
        match lookupLast kvs "url" with
        | some (Json.str u) => Except.ok u
        | _ => Except.error "snapshot URL not found in response")

/-- `createGrafanaSnapshot` from main.go: fetch the dashboard definition,
then create the snapshot; wraps the stage errors.  Returns the list of
requests issued, in order, together with the result. -/
def createGrafanaSnapshot (net : HttpRequest → Except String UpstreamResponse) (cfg : Config)
    (dashboardUID : String) : List HttpRequest × Except String String :=
  let g := getDashboardConfig net cfg dashboardUID
  match g.snd with
  | Except.error e => ([g.fst], Except.error ("error getting dashboard config: " ++ e))
  | Except.ok dashboard =>
    let c := createSnapshot net cfg dashboard
    ([g.fst, c.fst],
      match c.snd with
      | Except.error e => Except.error ("error creating snapshot: " ++ e)
      | Except.ok u => Except.ok u)

/-- Spec-side description (from the spec's words, for comparison against the
code) of the first outbound call: "fetch the full dashboard definition by
identifier via an authenticated GET" with the bearer-style credential
header. -/
def specDashboardGetRequest (cfg : Config) (dashboardUID : String) : HttpRequest :=
  { method := "GET"
    url := cfg.grafanaURL ++ "/api/dashboards/uid/" ++ dashboardUID
    headers := [("Authorization", "Bearer " ++ cfg.grafanaAPIKey)]
    payload := none }

/-- Spec-side description of the second outbound call: "submit that
definition to a snapshot-creation endpoint with a fixed expiry (3600
seconds) via an authenticated POST" with payload
`{"dashboard": dashboard, "expires": 3600}`. -/
def specSnapshotPostRequest (cfg : Config) (dashboard : List (String × Json)) : HttpRequest :=
  { method := "POST"
    url := cfg.grafanaURL ++ "/api/snapshots"
    headers := [("Authorization", "Bearer " ++ cfg.grafanaAPIKey),
                ("Content-Type", "application/json")]
    payload := some (Json.obj [("dashboard", Json.obj dashboard), ("expires", Json.num 3600)]) }

/-- Spec-side condition "transport error or non-success status code" on one
call's outcome. -/
def specCallFails : Except String UpstreamResponse → Bool
  | Except.error _ => true
  | Except.ok resp => !(resp.statusCode == 200)

/-- Spec-side extraction of the `dashboard` object field of a response, if
present: `none` means "the dashboard field is missing from the response"
(no response, undecodable body, or no object under that key). -/
def specDashboardField : Except String UpstreamResponse → Option (List (String × Json))
  | Except.ok resp =>
    match resp.respBody with
    | RawBody.wellFormed (Json.obj kvs) =>
      match lookupLast kvs "dashboard" with
      | some (Json.obj d) => some d
      | _ => none
    | _ => none
  | Except.error _ => none

/-- Spec-side extraction of the `url` string field of a response, if
present: `none` means "the url field is missing from the response". -/
def specUrlField : Except String UpstreamResponse → Option String
  | Except.ok resp =>
    match resp.respBody with
    | RawBody.wellFormed (Json.obj kvs) =>
      match lookupLast kvs "url" with
      | some (Json.str u) => some u
      | _ => none
    | _ => none
  | Except.error _ => none

/-- Test configuration used by the concrete witnesses. -/
def cfgT : Config :=
  ⟨"http://grafana:3000", "APIKEY", "smtp.example.com", 587,
   "sender@example.com", "pw", "ops@example.com", "dash-uid", "5000"⟩

/-- A firing CPU alert, as decoded. -/
def alertCPU : Alert :=
  ⟨"firing", [("severity", "warning")], [("summary", "CPU high"), ("description", "92%")]⟩

/-- A firing memory alert, as decoded. -/
def alertMem : Alert :=
  ⟨"firing", [], [("summary", "Memory high"), ("description", "93%")]⟩

/-- JSON form of `alertCPU`. -/
def alertCPUJson : Json :=
  Json.obj [("status", Json.str "firing"),
            ("labels", Json.obj [("severity", Json.str "warning")]),
            ("annotations", Json.obj [("summary", Json.str "CPU high"),
                                      ("description", Json.str "92%")])]

/-- JSON form of `alertMem`. -/
def alertMemJson : Json :=
  Json.obj [("status", Json.str "firing"),
            ("labels", Json.obj []),
            ("annotations", Json.obj [("summary", Json.str "Memory high"),
                                      ("description", Json.str "93%")])]

/-- A two-alert request body. -/
def batchJson2 : Json := Json.obj [("alerts", Json.arr [alertCPUJson, alertMemJson])]

/-- Snapshot oracle that always succeeds with a fixed URL. -/
def snapOkT : Nat → Except String String := fun _ => Except.ok "https://g/snap/abc"

/-- Snapshot oracle that always fails. -/
def snapErrT : Nat → Except String String := fun _ => Except.error "connection refused"

/-- Dial oracle that always succeeds. -/
def dialOkT : Nat → EmailMsg → Option String := fun _ _ => none

/-- Dial oracle that always fails. -/
def dialFailT : Nat → EmailMsg → Option String := fun _ _ => some "smtp unreachable"

theorem handleAlert_decoded {j : Json} {m : AlertMessage}
    (h : unmarshalAlertMessage j = Except.ok m)
    (snap : Nat → Except String String) (dial : Nat → EmailMsg → Option String) (cfg : Config) :
    handleAlert (BodyRead.success (RawBody.wellFormed j)) snap dial cfg =
      processAlerts snap dial cfg m.alerts 0 := by
  simp [handleAlert, h]

theorem processAlerts_ok (snap : Nat → Except String String)
    (dial : Nat → EmailMsg → Option String) (cfg : Config)
    (hd : ∀ i msg, dial i msg = none) :
    ∀ (alerts : List Alert) (i : Nat),
      processAlerts snap dial cfg alerts i = (fullTrace snap cfg alerts i, ⟨200, ""⟩) := by
  intro alerts
  induction alerts with
  | nil => intro i; rfl
  | cons a rest ih =>
    intro i
    simp [processAlerts, fullTrace, sendEmailWithSnapshotLink, hd, ih]

theorem countSnapshots_fullTrace (snap : Nat → Except String String) (cfg : Config) :
    ∀ (alerts : List Alert) (i : Nat),
      countSnapshots (fullTrace snap cfg alerts i) = alerts.length := by
  intro alerts
  induction alerts with
  | nil => intro i; rfl
  | cons a rest ih => intro i; simp [fullTrace, alertEvents, countSnapshots, ih]

theorem countComposed_fullTrace (snap : Nat → Except String String) (cfg : Config) :
    ∀ (alerts : List Alert) (i : Nat),
      countComposed (fullTrace snap cfg alerts i) = alerts.length := by
  intro alerts
  induction alerts with
  | nil => intro i; rfl
  | cons a rest ih => intro i; simp [fullTrace, alertEvents, countComposed, ih]

theorem countMail_fullTrace (snap : Nat → Except String String) (cfg : Config) :
    ∀ (alerts : List Alert) (i : Nat),
      countMail (fullTrace snap cfg alerts i) = alerts.length := by
  intro alerts
  induction alerts with
  | nil => intro i; rfl
  | cons a rest ih => intro i; simp [fullTrace, alertEvents, countMail, ih]

theorem processAlerts_abort (snap : Nat → Except String String)
    (dial : Nat → EmailMsg → Option String) (cfg : Config) :
    ∀ (alerts : List Alert) (i k : Nat) (hk : k < alerts.length),
      (∀ j (hj : j < k),
        dial (i + j) (stepMsg cfg (snap (i + j)) (alerts.get ⟨j, Nat.lt_trans hj hk⟩)) = none) →
      (dial (i + k) (stepMsg cfg (snap (i + k)) (alerts.get ⟨k, hk⟩))).isSome = true →
      processAlerts snap dial cfg alerts i =
        (fullTrace snap cfg (alerts.take (k + 1)) i, ⟨500, "Eerror sending email\n"⟩) := by
  intro alerts
  induction alerts with
  | nil => intro i k hk; exact absurd hk (by simp)
  | cons a rest ih =>
    intro i k hk hprev hfail
    cases k with
    | zero =>
      simp only [Nat.add_zero] at hfail
      rcases ho : dial i (composeEmailMessage cfg (composeSubject a) (composeBody a) (urlOf (snap i))) with _ | e
      · rw [show ((a :: rest).get ⟨0, hk⟩) = a from rfl] at hfail
        rw [show stepMsg cfg (snap i) a =
            composeEmailMessage cfg (composeSubject a) (composeBody a) (urlOf (snap i)) from rfl] at hfail
        rw [ho] at hfail
        simp at hfail
      · simp [processAlerts, sendEmailWithSnapshotLink, ho, fullTrace, alertEvents, stepMsg]
    | succ k' =>
      have h0 := hprev 0 (Nat.succ_pos k')
      simp only [Nat.add_zero] at h0
      have h0' : dial i (composeEmailMessage cfg (composeSubject a) (composeBody a) (urlOf (snap i))) = none := h0
      have hk' : k' < rest.length := Nat.lt_of_succ_lt_succ hk
      have hprev' : ∀ j (hj : j < k'),
          dial ((i + 1) + j) (stepMsg cfg (snap ((i + 1) + j)) (rest.get ⟨j, Nat.lt_trans hj hk'⟩)) = none := by
        intro j hj
        have e : (i + 1) + j = i + (j + 1) := by omega
        rw [e]
        exact hprev (j + 1) (Nat.succ_lt_succ hj)
      have hfail' : (dial ((i + 1) + k') (stepMsg cfg (snap ((i + 1) + k')) (rest.get ⟨k', hk'⟩))).isSome = true := by
        have e : (i + 1) + k' = i + (k' + 1) := by omega
        rw [e]
        exact hfail
      have hrec := ih (i + 1) k' hk' hprev' hfail'
      simp [processAlerts, sendEmailWithSnapshotLink, h0', hrec, fullTrace, List.take_succ_cons]

theorem mailAttempt_mem_fullTrace (snap : Nat → Except String String) (cfg : Config) :
    ∀ (alerts : List Alert) (i j : Nat) (hj : j < alerts.length),
      Event.mailAttempt (stepMsg cfg (snap (i + j)) (alerts.get ⟨j, hj⟩)) ∈
        fullTrace snap cfg alerts i := by
  intro alerts
  induction alerts with
  | nil => intro i j hj; exact absurd hj (by simp)
  | cons a rest ih =>
    intro i j hj
    cases j with
    | zero => simp [fullTrace, alertEvents]
    | succ j' =>
      have e : i + (j' + 1) = (i + 1) + j' := by omega
      simp only [fullTrace]
      refine List.mem_append.mpr (Or.inr ?_)
      rw [e]
      exact ih (i + 1) j' (Nat.lt_of_succ_lt_succ hj)

theorem mailAttempt_mem_fullTrace_take (snap : Nat → Except String String) (cfg : Config) :
    ∀ (alerts : List Alert) (i k j : Nat) (hk : k < alerts.length) (hj : j ≤ k),
      Event.mailAttempt (stepMsg cfg (snap (i + j)) (alerts.get ⟨j, Nat.lt_of_le_of_lt hj hk⟩)) ∈
        fullTrace snap cfg (alerts.take (k + 1)) i := by
  intro alerts
  induction alerts with
  | nil => intro i k j hk hj; exact absurd hk (by simp)
  | cons a rest ih =>
    intro i k j hk hj
    cases j with
    | zero => simp [List.take_succ_cons, fullTrace, alertEvents]
    | succ j' =>
      cases k with
      | zero => exact absurd hj (by omega)
      | succ k' =>
        have e : i + (j' + 1) = (i + 1) + j' := by omega
        simp only [List.take_succ_cons, fullTrace]
        refine List.mem_append.mpr (Or.inr ?_)
        rw [e]
        exact ih (i + 1) k' j' (Nat.lt_of_succ_lt_succ hk) (Nat.le_of_succ_le_succ hj)

/-- C6: composition is a pure total function (`composeSubject`/`composeBody`
are Lean functions into `String`, with no error path): the subject is the
fixed prefix "Monitor Alert: " followed by the alert's "summary" annotation,
the body is an HTML fragment with the summary as heading and the
"description" annotation as paragraph, and a missing "summary" or
"description" annotation degrades to the empty string; a "CPU high" summary
appears literally in the subject. -/
theorem composition_pure_and_shaped (a : Alert) :
    composeSubject a = "Monitor Alert: " ++ annot a.annotations "summary" ∧
    composeBody a = "<h1>" ++ annot a.annotations "summary" ++ "</h1><p>" ++
      annot a.annotations "description" ++ "</p>" ∧
    (lookupLast a.annotations "summary" = none → composeSubject a = "Monitor Alert: " ++ "") ∧
    (lookupLast a.annotations "summary" = none → lookupLast a.annotations "description" = none →
      composeBody a = "<h1>" ++ "" ++ "</h1><p>" ++ "" ++ "</p>") ∧
    (annot a.annotations "summary" = "CPU high" →
      ∃ suf, composeSubject a = "Monitor Alert: " ++ "CPU high" ++ suf) := by
  refine ⟨rfl, rfl, ?_, ?_, ?_⟩
  · intro h; simp [composeSubject, annot, h]
  · intro h1 h2; simp [composeBody, annot, h1, h2]
  · intro h
    refine ⟨"", ?_⟩
    simp [composeSubject, h]

/-- C6 witness: an alert with no annotations degrades to empty strings, and
the CPU alert's subject embeds "CPU high". -/
theorem composition_pure_and_shaped_witness :
    composeSubject ⟨"", [], []⟩ = "Monitor Alert: " ++ "" ∧
    (∃ suf, composeSubject alertCPU = "Monitor Alert: " ++ "CPU high" ++ suf) :=
  ⟨(composition_pure_and_shaped ⟨"", [], []⟩).2.2.1 rfl,
   (composition_pure_and_shaped alertCPU).2.2.2.2 rfl⟩

/-- C7: when the snapshot acquisition for an alert succeeds with URL `u`, the
loop iteration composes and hands to the dialer a message whose HTML body
embeds exactly `u` as the hyperlink target. -/
theorem snapshotUrlEmbedded (snap : Nat → Except String String)
    (dial : Nat → EmailMsg → Option String) (cfg : Config)
    (a : Alert) (rest : List Alert) (i : Nat) (u : String)
    (hs : snap i = Except.ok u) :
    (∃ t, (processAlerts snap dial cfg (a :: rest) i).fst =
      Event.snapshotCall cfg.dashboardUID (Except.ok u) ::
      Event.composed (composeSubject a) (composeBody a) ::
      Event.mailAttempt (composeEmailMessage cfg (composeSubject a) (composeBody a) u) :: t) ∧
    (composeEmailMessage cfg (composeSubject a) (composeBody a) u).htmlBody =
      (composeBody a ++ "<br><br>Grafana Snapshot: <a href=\x27") ++ u ++ "\x27>View Snapshot</a>" := by
  constructor
  · rcases ho : dial i (composeEmailMessage cfg (composeSubject a) (composeBody a) u) with _ | e
    · exact ⟨(processAlerts snap dial cfg rest (i + 1)).fst,
        by simp [processAlerts, sendEmailWithSnapshotLink, hs, alertEvents, stepMsg, urlOf, ho]⟩
    · exact ⟨[],
        by simp [processAlerts, sendEmailWithSnapshotLink, hs, alertEvents, stepMsg, urlOf, ho]⟩
  · rfl

/-- C7 witness: concrete run with a successful snapshot URL. -/
theorem snapshotUrlEmbedded_witness :
    (∃ t, (processAlerts snapOkT dialOkT cfgT (alertCPU :: []) 0).fst =
      Event.snapshotCall cfgT.dashboardUID (Except.ok "https://g/snap/abc") ::
      Event.composed (composeSubject alertCPU) (composeBody alertCPU) ::
      Event.mailAttempt (composeEmailMessage cfgT (composeSubject alertCPU) (composeBody alertCPU)
        "https://g/snap/abc") :: t) ∧
    (composeEmailMessage cfgT (composeSubject alertCPU) (composeBody alertCPU)
        "https://g/snap/abc").htmlBody =
      (composeBody alertCPU ++ "<br><br>Grafana Snapshot: <a href=\x27") ++ "https://g/snap/abc" ++
        "\x27>View Snapshot</a>" :=
  snapshotUrlEmbedded snapOkT dialOkT cfgT alertCPU [] 0 "https://g/snap/abc" rfl

/-- C9: a request whose body decodes to an empty alert list (including a
valid JSON object with no `alerts` key) gets a 200 response and zero
outbound calls. -/
theorem emptyBatchRespondsOk (snap : Nat → Except String String)
    (dial : Nat → EmailMsg → Option String) (cfg : Config) (j : Json)
    (h : unmarshalAlertMessage j = Except.ok ⟨[]⟩) :
    handleAlert (BodyRead.success (RawBody.wellFormed j)) snap dial cfg = ([], ⟨200, ""⟩) := by
  simp [handleAlert, h, processAlerts]

/-- C9 witness: the body is a valid JSON object with no `alerts` key. -/
theorem emptyBatchRespondsOk_witness :
    unmarshalAlertMessage (Json.obj []) = Except.ok ⟨[]⟩ ∧
    handleAlert (BodyRead.success (RawBody.wellFormed (Json.obj []))) snapOkT dialOkT cfgT =
      ([], ⟨200, ""⟩) :=
  ⟨rfl, emptyBatchRespondsOk snapOkT dialOkT cfgT (Json.obj []) rfl⟩

/-- C4 counterexample: the body is the valid JSON object with no `alerts`
key; the handler responds 200 (with zero outbound calls), not 400 as the
claim states. -/
theorem missingAlertsKeyNot400 :
    (handleAlert (BodyRead.success (RawBody.wellFormed (Json.obj []))) snapOkT dialOkT cfgT).snd.status ≠ 400 ∧
    handleAlert (BodyRead.success (RawBody.wellFormed (Json.obj []))) snapOkT dialOkT cfgT =
      ([], ⟨200, ""⟩) := by
  constructor
  · intro h
    simp [handleAlert, unmarshalAlertMessage, lookupLast, processAlerts] at h
  · rfl

/-- C4 amended: a request body that fails to decode — not syntactically
valid JSON, or JSON that cannot be unmarshalled into the AlertMessage
structure — yields 400 with the decode-error detail and zero outbound
calls.  (A valid JSON object merely lacking the `alerts` key decodes to an
empty batch and is NOT a 400.) -/
theorem decodeFailureResponds400 (snap : Nat → Except String String)
    (dial : Nat → EmailMsg → Option String) (cfg : Config) :
    (∀ e, handleAlert (BodyRead.success (RawBody.malformed e)) snap dial cfg =
      ([], ⟨400, e ++ "\n"⟩)) ∧
    (∀ (j : Json) (e : String), unmarshalAlertMessage j = Except.error e →
      handleAlert (BodyRead.success (RawBody.wellFormed j)) snap dial cfg =
        ([], ⟨400, e ++ "\n"⟩)) := by
  constructor
  · intro e; rfl
  · intro j e h; simp [handleAlert, h]

/-- C4 witness: a malformed body and a well-formed non-object body both get
400 with the decode detail and an empty trace. -/
theorem decodeFailureResponds400_witness :
    handleAlert (BodyRead.success (RawBody.malformed "unexpected end of JSON input"))
      snapOkT dialOkT cfgT = ([], ⟨400, "unexpected end of JSON input" ++ "\n"⟩) ∧
    handleAlert (BodyRead.success (RawBody.wellFormed (Json.str "x"))) snapOkT dialOkT cfgT =
      ([], ⟨400, "cannot unmarshal value into Go value of type main.AlertMessage" ++ "\n"⟩) :=
  ⟨(decodeFailureResponds400 snapOkT dialOkT cfgT).1 "unexpected end of JSON input",
   (decodeFailureResponds400 snapOkT dialOkT cfgT).2 (Json.str "x") _ rfl⟩

/-- C8: a request whose batch is fully processed with every delivery
succeeding responds 200 with an empty body, and a body-read failure responds
500 with a plain-text error and an empty trace (no alert processed). -/
theorem fullSuccessAndReadFailure (snap : Nat → Except String String)
    (dial : Nat → EmailMsg → Option String) (cfg : Config) :
    (∀ e, handleAlert (BodyRead.failure e) snap dial cfg =
      ([], ⟨500, "error reading request body\n"⟩)) ∧
    (∀ (j : Json) (m : AlertMessage), unmarshalAlertMessage j = Except.ok m →
      (∀ i msg, dial i msg = none) →
      handleAlert (BodyRead.success (RawBody.wellFormed j)) snap dial cfg =
        (fullTrace snap cfg m.alerts 0, ⟨200, ""⟩)) := by
  constructor
  · intro e; rfl
  · intro j m hj hd
    rw [handleAlert_decoded hj snap dial cfg]
    exact processAlerts_ok snap dial cfg hd m.alerts 0

/-- C8 witness: concrete read failure, and a concrete two-alert batch fully
delivered. -/
theorem fullSuccessAndReadFailure_witness :
    handleAlert (BodyRead.failure "read timeout") snapOkT dialOkT cfgT =
      ([], ⟨500, "error reading request body\n"⟩) ∧
    handleAlert (BodyRead.success (RawBody.wellFormed batchJson2)) snapOkT dialOkT cfgT =
      (fullTrace snapOkT cfgT [alertCPU, alertMem] 0, ⟨200, ""⟩) :=
  ⟨(fullSuccessAndReadFailure snapOkT dialOkT cfgT).1 "read timeout",
   (fullSuccessAndReadFailure snapOkT dialOkT cfgT).2 batchJson2 ⟨[alertCPU, alertMem]⟩ rfl
     (fun _ _ => rfl)⟩

/-- Dial oracle whose first delivery succeeds and later ones fail. -/
def dialSecondFailsT : Nat → EmailMsg → Option String :=
  fun i _ => if i = 0 then none else some "smtp unreachable"

/-- C1 counterexample: for the decoded two-alert batch, with mail delivery
failing on the first alert, the handler attempts snapshot acquisition only
once — not once per alert as the claim states unconditionally. -/
theorem snapshotAttemptsNotAlwaysN :
    unmarshalAlertMessage batchJson2 = Except.ok ⟨[alertCPU, alertMem]⟩ ∧
    countSnapshots (handleAlert (BodyRead.success (RawBody.wellFormed batchJson2))
      snapOkT dialFailT cfgT).fst = 1 ∧
    countSnapshots (handleAlert (BodyRead.success (RawBody.wellFormed batchJson2))
      snapOkT dialFailT cfgT).fst ≠ [alertCPU, alertMem].length := by
  refine ⟨rfl, rfl, ?_⟩
  decide

/-- C1 amended: for every successfully decoded batch, provided no mail
delivery fails (a delivery failure aborts the request mid-batch), the
handler attempts snapshot acquisition and composition exactly N times, once
per alert, in the batch's input order: the trace is exactly the per-alert
event triples in the batch's list order. -/
theorem snapshotAttemptsPerAlertWhenNoAbort (snap : Nat → Except String String)
    (dial : Nat → EmailMsg → Option String) (cfg : Config) (j : Json) (m : AlertMessage)
    (hj : unmarshalAlertMessage j = Except.ok m)
    (hd : ∀ i msg, dial i msg = none) :
    (handleAlert (BodyRead.success (RawBody.wellFormed j)) snap dial cfg).fst =
      fullTrace snap cfg m.alerts 0 ∧
    countSnapshots ((handleAlert (BodyRead.success (RawBody.wellFormed j)) snap dial cfg).fst) =
      m.alerts.length ∧
    countComposed ((handleAlert (BodyRead.success (RawBody.wellFormed j)) snap dial cfg).fst) =
      m.alerts.length := by
  have h := handleAlert_decoded hj snap dial cfg
  have h2 := processAlerts_ok snap dial cfg hd m.alerts 0
  rw [h, h2]
  exact ⟨rfl, countSnapshots_fullTrace snap cfg m.alerts 0, countComposed_fullTrace snap cfg m.alerts 0⟩

/-- C1 witness: the two-alert batch with all deliveries succeeding is
processed with exactly two snapshot attempts and two compositions. -/
theorem snapshotAttemptsPerAlertWhenNoAbort_witness :
    (handleAlert (BodyRead.success (RawBody.wellFormed batchJson2)) snapOkT dialOkT cfgT).fst =
      fullTrace snapOkT cfgT [alertCPU, alertMem] 0 ∧
    countSnapshots ((handleAlert (BodyRead.success (RawBody.wellFormed batchJson2))
      snapOkT dialOkT cfgT).fst) = 2 ∧
    countComposed ((handleAlert (BodyRead.success (RawBody.wellFormed batchJson2))
      snapOkT dialOkT cfgT).fst) = 2 :=
  snapshotAttemptsPerAlertWhenNoAbort snapOkT dialOkT cfgT batchJson2 ⟨[alertCPU, alertMem]⟩ rfl
    (fun _ _ => rfl)

/-- C2: if snapshot acquisition fails for the alert at position k, the
handler still composes and hands that alert's message to the dialer with the
placeholder text embedded in the HTML body in place of a URL; with
deliveries succeeding, the request is not aborted (200 response) and every
sibling alert's delivery is still attempted. -/
theorem snapshotFailureDegradesToPlaceholder (snap : Nat → Except String String)
    (dial : Nat → EmailMsg → Option String) (cfg : Config) (j : Json) (m : AlertMessage)
    (hj : unmarshalAlertMessage j = Except.ok m)
    (hd : ∀ i msg, dial i msg = none)
    (k : Nat) (hk : k < m.alerts.length) (e : String) (hs : snap k = Except.error e) :
    (handleAlert (BodyRead.success (RawBody.wellFormed j)) snap dial cfg).snd = ⟨200, ""⟩ ∧
    Event.mailAttempt (stepMsg cfg (snap k) (m.alerts.get ⟨k, hk⟩)) ∈
      (handleAlert (BodyRead.success (RawBody.wellFormed j)) snap dial cfg).fst ∧
    (∃ pre suf, (stepMsg cfg (snap k) (m.alerts.get ⟨k, hk⟩)).htmlBody =
      pre ++ "failed to get snapshot URL" ++ suf) ∧
    (∀ i (hi : i < m.alerts.length),
      Event.mailAttempt (stepMsg cfg (snap i) (m.alerts.get ⟨i, hi⟩)) ∈
        (handleAlert (BodyRead.success (RawBody.wellFormed j)) snap dial cfg).fst) := by
  have hredu : handleAlert (BodyRead.success (RawBody.wellFormed j)) snap dial cfg =
      (fullTrace snap cfg m.alerts 0, ⟨200, ""⟩) := by
    rw [handleAlert_decoded hj snap dial cfg]
    exact processAlerts_ok snap dial cfg hd m.alerts 0
  rw [hredu]
  refine ⟨rfl, ?_, ?_, ?_⟩
  · have h := mailAttempt_mem_fullTrace snap cfg m.alerts 0 k hk
    rw [Nat.zero_add] at h
    exact h
  · refine ⟨composeBody (m.alerts.get ⟨k, hk⟩) ++ "<br><br>Grafana Snapshot: <a href=\x27",
      "\x27>View Snapshot</a>", ?_⟩
    rw [hs]
    rfl
  · intro i hi
    have h := mailAttempt_mem_fullTrace snap cfg m.alerts 0 i hi
    rw [Nat.zero_add] at h
    exact h

/-- C2 witness: concrete run with failing snapshot oracle and succeeding
dialer on the two-alert batch. -/
theorem snapshotFailureDegradesToPlaceholder_witness :
    (handleAlert (BodyRead.success (RawBody.wellFormed batchJson2)) snapErrT dialOkT cfgT).snd =
      ⟨200, ""⟩ ∧
    (∃ pre suf, (stepMsg cfgT (snapErrT 0) ([alertCPU, alertMem].get ⟨0, by decide⟩)).htmlBody =
      pre ++ "failed to get snapshot URL" ++ suf) := by
  have h := snapshotFailureDegradesToPlaceholder snapErrT dialOkT cfgT batchJson2
    ⟨[alertCPU, alertMem]⟩ rfl (fun _ _ => rfl) 0 (by decide) "connection refused" rfl
  exact ⟨h.1, h.2.2.1⟩

/-- C3: if mail delivery fails for the alert at index k (deliveries for all
earlier alerts having succeeded), the handler responds 500 at once and the
trace is exactly that of the first k+1 alerts: no snapshot acquisition,
composition or delivery is attempted for any alert after the failing one. -/
theorem deliveryFailureAbortsRequest (snap : Nat → Except String String)
    (dial : Nat → EmailMsg → Option String) (cfg : Config) (j : Json) (m : AlertMessage)
    (hj : unmarshalAlertMessage j = Except.ok m)
    (k : Nat) (hk : k < m.alerts.length)
    (hprev : ∀ i (hi : i < k),
      dial i (stepMsg cfg (snap i) (m.alerts.get ⟨i, Nat.lt_trans hi hk⟩)) = none)
    (hfail : (dial k (stepMsg cfg (snap k) (m.alerts.get ⟨k, hk⟩))).isSome = true) :
    handleAlert (BodyRead.success (RawBody.wellFormed j)) snap dial cfg =
      (fullTrace snap cfg (m.alerts.take (k + 1)) 0, ⟨500, "Eerror sending email\n"⟩) ∧
    countSnapshots (fullTrace snap cfg (m.alerts.take (k + 1)) 0) = k + 1 ∧
    countComposed (fullTrace snap cfg (m.alerts.take (k + 1)) 0) = k + 1 ∧
    countMail (fullTrace snap cfg (m.alerts.take (k + 1)) 0) = k + 1 := by
  have hprev' : ∀ i2 (hi : i2 < k),
      dial (0 + i2) (stepMsg cfg (snap (0 + i2)) (m.alerts.get ⟨i2, Nat.lt_trans hi hk⟩)) = none := by
    intro i2 hi
    rw [Nat.zero_add]
    exact hprev i2 hi
  have hfail' : (dial (0 + k) (stepMsg cfg (snap (0 + k)) (m.alerts.get ⟨k, hk⟩))).isSome = true := by
    rw [Nat.zero_add]
    exact hfail
  have habort := processAlerts_abort snap dial cfg m.alerts 0 k hk hprev' hfail'
  have hlen : (m.alerts.take (k + 1)).length = k + 1 := by
    rw [List.length_take]
    omega
  refine ⟨?_, ?_, ?_, ?_⟩
  · rw [handleAlert_decoded hj snap dial cfg]
    exact habort
  · exact (countSnapshots_fullTrace snap cfg (m.alerts.take (k + 1)) 0).trans hlen
  · exact (countComposed_fullTrace snap cfg (m.alerts.take (k + 1)) 0).trans hlen
  · exact (countMail_fullTrace snap cfg (m.alerts.take (k + 1)) 0).trans hlen

/-- C3 witness: delivery fails for the first alert of the two-alert batch;
the 500 response is immediate and only one alert's events are in the trace. -/
theorem deliveryFailureAbortsRequest_witness :
    handleAlert (BodyRead.success (RawBody.wellFormed batchJson2)) snapOkT dialFailT cfgT =
      (fullTrace snapOkT cfgT ([alertCPU, alertMem].take 1) 0, ⟨500, "Eerror sending email\n"⟩) ∧
    countSnapshots (fullTrace snapOkT cfgT ([alertCPU, alertMem].take 1) 0) = 1 := by
  have h := deliveryFailureAbortsRequest snapOkT dialFailT cfgT batchJson2 ⟨[alertCPU, alertMem]⟩
    rfl 0 (by decide) (fun i hi => absurd hi (Nat.not_lt_zero i)) rfl
  exact ⟨h.1, h.2.1⟩

/-- C10: request handling is not atomic on delivery error — when delivery
fails at index k after earlier successes, a delivery attempt had already
been made for every index below k (each such attempt is in the trace), and
the 500 response carries only the fixed error text, neither undoing nor
reporting those earlier deliveries. -/
theorem earlierDeliveriesNotUndone (snap : Nat → Except String String)
    (dial : Nat → EmailMsg → Option String) (cfg : Config) (j : Json) (m : AlertMessage)
    (hj : unmarshalAlertMessage j = Except.ok m)
    (k : Nat) (hk : k < m.alerts.length)
    (hprev : ∀ i (hi : i < k),
      dial i (stepMsg cfg (snap i) (m.alerts.get ⟨i, Nat.lt_trans hi hk⟩)) = none)
    (hfail : (dial k (stepMsg cfg (snap k) (m.alerts.get ⟨k, hk⟩))).isSome = true) :
    (∀ i (hi : i < k),
      Event.mailAttempt (stepMsg cfg (snap i) (m.alerts.get ⟨i, Nat.lt_trans hi hk⟩)) ∈
        (handleAlert (BodyRead.success (RawBody.wellFormed j)) snap dial cfg).fst) ∧
    (handleAlert (BodyRead.success (RawBody.wellFormed j)) snap dial cfg).snd =
      ⟨500, "Eerror sending email\n"⟩ := by
  have hprev' : ∀ i2 (hi : i2 < k),
      dial (0 + i2) (stepMsg cfg (snap (0 + i2)) (m.alerts.get ⟨i2, Nat.lt_trans hi hk⟩)) = none := by
    intro i2 hi
    rw [Nat.zero_add]
    exact hprev i2 hi
  have hfail' : (dial (0 + k) (stepMsg cfg (snap (0 + k)) (m.alerts.get ⟨k, hk⟩))).isSome = true := by
    rw [Nat.zero_add]
    exact hfail
  have habort := processAlerts_abort snap dial cfg m.alerts 0 k hk hprev' hfail'
  have hh : handleAlert (BodyRead.success (RawBody.wellFormed j)) snap dial cfg =
      (fullTrace snap cfg (m.alerts.take (k + 1)) 0, ⟨500, "Eerror sending email\n"⟩) := by
    rw [handleAlert_decoded hj snap dial cfg]
    exact habort
  rw [hh]
  constructor
  · intro i hi
    have h := mailAttempt_mem_fullTrace_take snap cfg m.alerts 0 k i hk (Nat.le_of_lt hi)
    rw [Nat.zero_add] at h
    exact h
  · rfl

/-- C10 witness: first delivery succeeds, second fails; the first alert's
delivery attempt is in the trace and the response is the fixed 500. -/
theorem earlierDeliveriesNotUndone_witness :
    Event.mailAttempt (stepMsg cfgT (snapOkT 0) ([alertCPU, alertMem].get ⟨0, by decide⟩)) ∈
      (handleAlert (BodyRead.success (RawBody.wellFormed batchJson2)) snapOkT dialSecondFailsT cfgT).fst ∧
    (handleAlert (BodyRead.success (RawBody.wellFormed batchJson2)) snapOkT dialSecondFailsT cfgT).snd =
      ⟨500, "Eerror sending email\n"⟩ := by
  have h := earlierDeliveriesNotUndone snapOkT dialSecondFailsT cfgT batchJson2
    ⟨[alertCPU, alertMem]⟩ rfl 1 (by decide)
    (fun i hi => by
      have hi0 : i = 0 := by omega
      subst hi0
      rfl)
    rfl
  exact ⟨h.1 0 (by decide), h.2⟩

/-- The request record `sendRequest` builds for a GET. -/
def getRequestFor (cfg : Config) (url : String) : HttpRequest :=
  { method := "GET", url := url,
    headers := [("Authorization", "Bearer " ++ cfg.grafanaAPIKey)], payload := none }

/-- The request record `sendRequest` builds for a POST. -/
def postRequestFor (cfg : Config) (url : String) (p : Json) : HttpRequest :=
  { method := "POST", url := url,
    headers := [("Authorization", "Bearer " ++ cfg.grafanaAPIKey),
                ("Content-Type", "application/json")], payload := some p }

theorem specDashboardGetRequest_eq (cfg : Config) (uid : String) :
    specDashboardGetRequest cfg uid =
      getRequestFor cfg (cfg.grafanaURL ++ "/api/dashboards/uid/" ++ uid) := rfl

theorem specSnapshotPostRequest_eq (cfg : Config) (d : List (String × Json)) :
    specSnapshotPostRequest cfg d =
      postRequestFor cfg (cfg.grafanaURL ++ "/api/snapshots")
        (Json.obj [("dashboard", Json.obj d), ("expires", Json.num 3600)]) := rfl

theorem sendRequest_get (net : HttpRequest → Except String UpstreamResponse) (cfg : Config)
    (url : String) :
    sendRequest net cfg "GET" url none =
      (getRequestFor cfg url,
       match net (getRequestFor cfg url) with
       | Except.error e => Except.error ("error sending request: " ++ e)
       | Except.ok resp =>
         if resp.statusCode = 200 then Except.ok resp
         else Except.error ("unexpected status code: " ++ toString resp.statusCode)) := rfl

theorem sendRequest_post (net : HttpRequest → Except String UpstreamResponse) (cfg : Config)
    (url : String) (p : Json) :
    sendRequest net cfg "POST" url (some p) =
      (postRequestFor cfg url p,
       match net (postRequestFor cfg url p) with
       | Except.error e => Except.error ("error sending request: " ++ e)
       | Except.ok resp =>
         if resp.statusCode = 200 then Except.ok resp
         else Except.error ("unexpected status code: " ++ toString resp.statusCode)) := rfl

theorem getDashboardConfig_req (net : HttpRequest → Except String UpstreamResponse)
    (cfg : Config) (uid : String) :
    (getDashboardConfig net cfg uid).fst = specDashboardGetRequest cfg uid := rfl

theorem createSnapshot_req (net : HttpRequest → Except String UpstreamResponse)
    (cfg : Config) (d : List (String × Json)) :
    (createSnapshot net cfg d).fst = specSnapshotPostRequest cfg d := rfl

theorem getDashboardConfig_isFailure_iff (net : HttpRequest → Except String UpstreamResponse)
    (cfg : Config) (uid : String) :
    isFailure (getDashboardConfig net cfg uid).snd = true ↔
      (specCallFails (net (specDashboardGetRequest cfg uid)) = true ∨
       specDashboardField (net (specDashboardGetRequest cfg uid)) = none) := by
  simp only [specDashboardGetRequest_eq]
  rcases hn : net (getRequestFor cfg (cfg.grafanaURL ++ "/api/dashboards/uid/" ++ uid)) with e1 | r1
  · simp [getDashboardConfig, sendRequest_get, hn, isFailure, specCallFails, specDashboardField]
  · rcases r1 with ⟨sc1, body1⟩
    by_cases hsc : sc1 = 200
    · subst hsc
      rcases body1 with em | jb
      · simp [getDashboardConfig, sendRequest_get, hn, isFailure, specCallFails,
          specDashboardField, decodeJsonMap]
      · cases jb with
        | null =>
          simp [getDashboardConfig, sendRequest_get, hn, isFailure, specCallFails,
            specDashboardField, decodeJsonMap, lookupLast]
        | bool b =>
          simp [getDashboardConfig, sendRequest_get, hn, isFailure, specCallFails,
            specDashboardField, decodeJsonMap]
        | num n =>
          simp [getDashboardConfig, sendRequest_get, hn, isFailure, specCallFails,
            specDashboardField, decodeJsonMap]
        | str s =>
          simp [getDashboardConfig, sendRequest_get, hn, isFailure, specCallFails,
            specDashboardField, decodeJsonMap]
        | arr xs =>
          simp [getDashboardConfig, sendRequest_get, hn, isFailure, specCallFails,
            specDashboardField, decodeJsonMap]
        | obj kvs =>
          rcases hlk : lookupLast kvs "dashboard" with _ | v
          · simp [getDashboardConfig, sendRequest_get, hn, isFailure, specCallFails,
              specDashboardField, decodeJsonMap, hlk]
          · cases v <;>
              simp [getDashboardConfig, sendRequest_get, hn, isFailure, specCallFails,
                specDashboardField, decodeJsonMap, hlk]
    · simp [getDashboardConfig, sendRequest_get, hn, isFailure, specCallFails,
        specDashboardField, hsc]

theorem getDashboardConfig_eq_ok (net : HttpRequest → Except String UpstreamResponse)
    (cfg : Config) (uid : String) (d : List (String × Json))
    (h1 : specCallFails (net (specDashboardGetRequest cfg uid)) = false)
    (h2 : specDashboardField (net (specDashboardGetRequest cfg uid)) = some d) :
    (getDashboardConfig net cfg uid).snd = Except.ok d := by
  simp only [specDashboardGetRequest_eq] at h1 h2
  rcases hn : net (getRequestFor cfg (cfg.grafanaURL ++ "/api/dashboards/uid/" ++ uid)) with e1 | r1
  · rw [hn] at h1
    simp [specCallFails] at h1
  · rcases r1 with ⟨sc1, body1⟩
    rw [hn] at h1 h2
    have hsc : sc1 = 200 := by simpa [specCallFails] using h1
    subst hsc
    rcases body1 with em | jb
    · simp [specDashboardField] at h2
    · cases jb with
      | null => simp [specDashboardField] at h2
      | bool b => simp [specDashboardField] at h2
      | num n => simp [specDashboardField] at h2
      | str s => simp [specDashboardField] at h2
      | arr xs => simp [specDashboardField] at h2
      | obj kvs =>
        rcases hlk : lookupLast kvs "dashboard" with _ | v
        · simp [specDashboardField, hlk] at h2
        · cases v with
          | obj dkvs =>
            simp [specDashboardField, hlk] at h2
            subst h2
            simp [getDashboardConfig, sendRequest_get, hn, decodeJsonMap, hlk]
          | null => simp [specDashboardField, hlk] at h2
          | bool b => simp [specDashboardField, hlk] at h2
          | num n => simp [specDashboardField, hlk] at h2
          | str s => simp [specDashboardField, hlk] at h2
          | arr xs => simp [specDashboardField, hlk] at h2

theorem createSnapshot_isFailure_iff (net : HttpRequest → Except String UpstreamResponse)
    (cfg : Config) (d : List (String × Json)) :
    isFailure (createSnapshot net cfg d).snd = true ↔
      (specCallFails (net (specSnapshotPostRequest cfg d)) = true ∨
       specUrlField (net (specSnapshotPostRequest cfg d)) = none) := by
  simp only [specSnapshotPostRequest_eq]
  rcases hn : net (postRequestFor cfg (cfg.grafanaURL ++ "/api/snapshots")
      (Json.obj [("dashboard", Json.obj d), ("expires", Json.num 3600)])) with e2 | r2
  · simp [createSnapshot, sendRequest_post, hn, isFailure, specCallFails, specUrlField]
  · rcases r2 with ⟨sc2, body2⟩
    by_cases hsc : sc2 = 200
    · subst hsc
      rcases body2 with em | jb
      · simp [createSnapshot, sendRequest_post, hn, isFailure, specCallFails,
          specUrlField, decodeJsonMap]
      · cases jb with
        | null =>
          simp [createSnapshot, sendRequest_post, hn, isFailure, specCallFails,
            specUrlField, decodeJsonMap, lookupLast]
        | bool b =>
          simp [createSnapshot, sendRequest_post, hn, isFailure, specCallFails,
            specUrlField, decodeJsonMap]
        | num n =>
          simp [createSnapshot, sendRequest_post, hn, isFailure, specCallFails,
            specUrlField, decodeJsonMap]
        | str s =>
          simp [createSnapshot, sendRequest_post, hn, isFailure, specCallFails,
            specUrlField, decodeJsonMap]
        | arr xs =>
          simp [createSnapshot, sendRequest_post, hn, isFailure, specCallFails,
            specUrlField, decodeJsonMap]
        | obj kvs =>
          rcases hlk : lookupLast kvs "url" with _ | v
          · simp [createSnapshot, sendRequest_post, hn, isFailure, specCallFails,
              specUrlField, decodeJsonMap, hlk]
          · cases v <;>
              simp [createSnapshot, sendRequest_post, hn, isFailure, specCallFails,
                specUrlField, decodeJsonMap, hlk]
    · simp [createSnapshot, sendRequest_post, hn, isFailure, specCallFails,
        specUrlField, hsc]

theorem createSnapshot_eq_ok (net : HttpRequest → Except String UpstreamResponse)
    (cfg : Config) (d : List (String × Json)) (u : String)
    (h1 : specCallFails (net (specSnapshotPostRequest cfg d)) = false)
    (h2 : specUrlField (net (specSnapshotPostRequest cfg d)) = some u) :
    (createSnapshot net cfg d).snd = Except.ok u := by
  simp only [specSnapshotPostRequest_eq] at h1 h2
  rcases hn : net (postRequestFor cfg (cfg.grafanaURL ++ "/api/snapshots")
      (Json.obj [("dashboard", Json.obj d), ("expires", Json.num 3600)])) with e2 | r2
  · rw [hn] at h1
    simp [specCallFails] at h1
  · rcases r2 with ⟨sc2, body2⟩
    rw [hn] at h1 h2
    have hsc : sc2 = 200 := by simpa [specCallFails] using h1
    subst hsc
    rcases body2 with em | jb
    · simp [specUrlField] at h2
    · cases jb with
      | null => simp [specUrlField] at h2
      | bool b => simp [specUrlField] at h2
      | num n => simp [specUrlField] at h2
      | str s => simp [specUrlField] at h2
      | arr xs => simp [specUrlField] at h2
      | obj kvs =>
        rcases hlk : lookupLast kvs "url" with _ | v
        · simp [specUrlField, hlk] at h2
        · cases v with
          | str u2 =>
            simp [specUrlField, hlk] at h2
            subst h2
            simp [createSnapshot, sendRequest_post, hn, decodeJsonMap, hlk]
          | null => simp [specUrlField, hlk] at h2
          | bool b => simp [specUrlField, hlk] at h2
          | num n => simp [specUrlField, hlk] at h2
          | arr xs => simp [specUrlField, hlk] at h2
          | obj kvs2 => simp [specUrlField, hlk] at h2

/-- C5: `createGrafanaSnapshot` performs the authenticated GET of the
dashboard definition and, when that call succeeds with a `dashboard` object
in the response, the authenticated POST of
`(dashboard, expires 3600)` to the snapshot-creation endpoint, returning
the `url` string of the second response; it returns an Error exactly when a
call has a transport error or a non-success status code, or the `dashboard`
object is missing from the first response, or the `url` string is missing
from the second. -/
theorem createGrafanaSnapshot_contract (net : HttpRequest → Except String UpstreamResponse)
    (cfg : Config) (uid : String) :
    ((specCallFails (net (specDashboardGetRequest cfg uid)) = true ∨
        specDashboardField (net (specDashboardGetRequest cfg uid)) = none) →
      (createGrafanaSnapshot net cfg uid).fst = [specDashboardGetRequest cfg uid] ∧
      isFailure (createGrafanaSnapshot net cfg uid).snd = true) ∧
    (∀ d, specCallFails (net (specDashboardGetRequest cfg uid)) = false →
      specDashboardField (net (specDashboardGetRequest cfg uid)) = some d →
      (createGrafanaSnapshot net cfg uid).fst =
        [specDashboardGetRequest cfg uid, specSnapshotPostRequest cfg d] ∧
      (isFailure (createGrafanaSnapshot net cfg uid).snd = true ↔
        (specCallFails (net (specSnapshotPostRequest cfg d)) = true ∨
         specUrlField (net (specSnapshotPostRequest cfg d)) = none)) ∧
      (∀ u, specUrlField (net (specSnapshotPostRequest cfg d)) = some u →
        specCallFails (net (specSnapshotPostRequest cfg d)) = false →
        (createGrafanaSnapshot net cfg uid).snd = Except.ok u)) := by
  constructor
  · intro hbad
    have hfail := (getDashboardConfig_isFailure_iff net cfg uid).mpr hbad
    rcases hx : (getDashboardConfig net cfg uid).snd with e | dd
    · constructor
      · simp [createGrafanaSnapshot, hx, getDashboardConfig_req]
      · simp [createGrafanaSnapshot, hx, isFailure]
    · rw [hx] at hfail
      simp [isFailure] at hfail
  · intro d h1ok hfld
    have hd := getDashboardConfig_eq_ok net cfg uid d h1ok hfld
    have hiff := createSnapshot_isFailure_iff net cfg d
    refine ⟨?_, ?_, ?_⟩
    · simp [createGrafanaSnapshot, hd, getDashboardConfig_req, createSnapshot_req]
    · rcases hy : (createSnapshot net cfg d).snd with e | u
      · have hL : isFailure (createGrafanaSnapshot net cfg uid).snd = true := by
          simp [createGrafanaSnapshot, hd, hy, isFailure]
        rw [hy] at hiff
        simp only [isFailure] at hiff
        rw [hL]
        simpa using hiff
      · have hL : isFailure (createGrafanaSnapshot net cfg uid).snd = false := by
          simp [createGrafanaSnapshot, hd, hy, isFailure]
        rw [hy] at hiff
        simp only [isFailure] at hiff
        rw [hL]
        simpa using hiff
    · intro u hu hcf
      have hs := createSnapshot_eq_ok net cfg d u hcf hu
      simp [createGrafanaSnapshot, hd, hs]

/-- Transport oracle for the witness: the GET yields a dashboard object, the
POST yields a snapshot URL. -/
def netT : HttpRequest → Except String UpstreamResponse := fun req =>
  if req.method = "GET" then
    Except.ok ⟨200, RawBody.wellFormed (Json.obj [("dashboard",
      Json.obj [("title", Json.str "dash")])])⟩
  else
    Except.ok ⟨200, RawBody.wellFormed (Json.obj [("url", Json.str "https://g/snap/abc")])⟩

/-- C5 witness: against `netT` the client issues exactly the GET then the
POST and returns the snapshot URL of the second response. -/
theorem createGrafanaSnapshot_contract_witness :
    (createGrafanaSnapshot netT cfgT "dash-uid").fst =
      [specDashboardGetRequest cfgT "dash-uid",
       specSnapshotPostRequest cfgT [("title", Json.str "dash")]] ∧
    (createGrafanaSnapshot netT cfgT "dash-uid").snd = Except.ok "https://g/snap/abc" := by
  have h := (createGrafanaSnapshot_contract netT cfgT "dash-uid").2
    [("title", Json.str "dash")] rfl rfl
  exact ⟨h.1, h.2.2 "https://g/snap/abc" rfl rfl⟩
